import Mathlib

/-!
Shallow embedding of the GHES error-record subsystem of `hw/acpi/ghes.c`
(QEMU fork).  Guest physical memory is a byte map `Nat → Nat`; the GArray
record buffers become `List Nat` of byte values; `build_append_int_noprefix`
becomes the little-endian byte encoder `uIntLE`.  Each definition carries a
note naming the C function it embeds.
-/

/-- Guest physical memory: a byte value (0..255 expected) at each address. -/
def Mem : Type := Nat → Nat

/-- Little-endian encoding of `v` on `n` bytes; embeds
`build_append_int_noprefix(table, v, n)` from `hw/acpi/aml-build.c`
(the value is truncated to `n` bytes, low byte first). -/
def uIntLE : Nat → Nat → List Nat
  | _, 0 => []
  | v, n + 1 => v % 256 :: uIntLE (v / 256) n

/-- Little-endian read of `n` bytes of guest memory at `a`; embeds
`cpu_physical_memory_read` of an `n`-byte scalar followed by `le*_to_cpu`. -/
def readLE (m : Mem) (a : Nat) : Nat → Nat
  | 0 => 0
  | n + 1 => m a % 256 + 256 * readLE m (a + 1) n

/-- Writing a byte list into guest memory at `a`; embeds
`cpu_physical_memory_write(a, block->data, block->len)`. -/
def writeBytes (m : Mem) (a : Nat) (bs : List Nat) : Mem :=
  fun x => if a ≤ x ∧ x < a + bs.length then bs.getD (x - a) 0 else m x

/-- ACPI_GHES_MAX_RAW_DATA_LENGTH (1 KiB), ghes.c line 39. -/
def ACPI_GHES_MAX_RAW_DATA_LENGTH : Nat := 1024

/-- ACPI_GHES_ERROR_SOURCE_COUNT, ghes.c line 42. -/
def ACPI_GHES_ERROR_SOURCE_COUNT : Nat := 2

/-- ACPI_GHES_DATA_LENGTH (generic error data entry size), ghes.c line 55. -/
def ACPI_GHES_DATA_LENGTH : Nat := 72

/-- ACPI_GHES_MEM_CPER_LENGTH, ghes.c line 58. -/
def ACPI_GHES_MEM_CPER_LENGTH : Nat := 80

/-- ACPI_GHES_PCIE_CPER_LENGTH, ghes.c line 59. -/
def ACPI_GHES_PCIE_CPER_LENGTH : Nat := 208

/-- ACPI_GEBS_UNCORRECTABLE, ghes.c line 62. -/
def ACPI_GEBS_UNCORRECTABLE : Nat := 1

/-- ACPI_GHES_GESB_SIZE (generic error status block size), ghes.c line 69. -/
def ACPI_GHES_GESB_SIZE : Nat := 20

/-- ACPI_CPER_SEV_RECOVERABLE, ghes.c line 75. -/
def ACPI_CPER_SEV_RECOVERABLE : Nat := 0

/-- Generic Error Status Block encoder, `acpi_ghes_generic_error_status`
(ghes.c lines 151-165): five 4-byte fields. -/
def acpi_ghes_generic_error_status (block_status raw_data_offset
    raw_data_length data_length error_severity : Nat) : List Nat :=
  uIntLE block_status 4 ++ uIntLE raw_data_offset 4 ++ uIntLE raw_data_length 4
    ++ uIntLE data_length 4 ++ uIntLE error_severity 4

/-- Generic Error Data Entry encoder, `acpi_ghes_generic_error_data`
(ghes.c lines 115-145): section type UUID (16), severity (4),
revision 0x300 (2), validation bits (1), flags (1), error data length (4),
FRU id (16), FRU text (20 zero bytes), timestamp (8). -/
def acpi_ghes_generic_error_data (section_type : List Nat)
    (error_severity validation_bits flags error_data_length : Nat)
    (fru_id : List Nat) (time_stamp : Nat) : List Nat :=
  section_type ++ uIntLE error_severity 4 ++ uIntLE 0x300 2
    ++ uIntLE validation_bits 1 ++ uIntLE flags 1
    ++ uIntLE error_data_length 4 ++ fru_id ++ List.replicate 20 0
    ++ uIntLE time_stamp 8

/-- The all-zero (invalid) FRU id, `QemuUUID fru_id = {}`. -/
def fru_id_zero : List Nat := List.replicate 16 0

/-- Memory Error Section encoder, `acpi_ghes_build_append_mem_cper`
(ghes.c lines 168-190): validation bits (1<<14)|(1<<1), zero status,
physical address, 48 zero bytes, unknown type, 7 zero bytes. -/
def acpi_ghes_build_append_mem_cper (error_physical_addr : Nat) : List Nat :=
  uIntLE ((1 <<< 14) ||| (1 <<< 1)) 8 ++ uIntLE 0 8
    ++ uIntLE error_physical_addr 8 ++ uIntLE 0 48 ++ uIntLE 0 1 ++ uIntLE 0 7

/-- Memory Error Section Type UUID bytes (ghes.c lines 467-469, the
`UUID_LE(0xA5BC1114, 0x6F64, 0x4EDE, ...)` expansion). -/
def uefi_cper_mem_sec : List Nat :=
  [0x14, 0x11, 0xBC, 0xA5, 0x64, 0x6F, 0xDE, 0x4E,
   0xB8, 0x63, 0x3E, 0x83, 0xED, 0x7C, 0x83, 0xB1]

/-- The record block built by `acpi_ghes_record_mem_error`
(ghes.c lines 461-506): status block with `block_status = 1`,
`data_length = 72 + 80`, severity recoverable, then the data entry header,
then the memory CPER. -/
def mem_error_block (error_physical_addr : Nat) : List Nat :=
  acpi_ghes_generic_error_status ACPI_GEBS_UNCORRECTABLE 0 0
      (ACPI_GHES_DATA_LENGTH + ACPI_GHES_MEM_CPER_LENGTH)
      ACPI_CPER_SEV_RECOVERABLE
    ++ acpi_ghes_generic_error_data uefi_cper_mem_sec
      ACPI_CPER_SEV_RECOVERABLE 0 0 ACPI_GHES_MEM_CPER_LENGTH fru_id_zero 0
    ++ acpi_ghes_build_append_mem_cper error_physical_addr

/-- State transformer of `acpi_ghes_record_mem_error` (ghes.c lines 461-506):
builds the block and writes it at `error_block_address`; the C function
returns 0. -/
def acpi_ghes_record_mem_error (error_block_address error_physical_addr : Nat)
    (m : Mem) : Nat × Mem :=
  (0, writeBytes m error_block_address (mem_error_block error_physical_addr))

/-- The `acpi_ghes_record_errors` entry point (ghes.c lines 809-853), with
the GHES region base (`ghes_get_state_start_address()`) passed explicitly.
The bound of `source_id` (`ACPI_HEST_SRC_ID_RESERVED`, declared in a header
outside `src/`) is modelled from the spec as 2, the two fixed sources.
The C return value is an `int` flowing through `bool ret = -1`, which
truncates to 1, so the failure paths return 1 and the success path returns
the 0 produced by `acpi_ghes_record_mem_error`. -/
def acpi_ghes_record_errors (base : Nat) (source_id : Nat)
    (physical_address : Nat) (m : Mem) : Nat × Mem :=
  if physical_address ≠ 0 then
    let start_addr := base + (if source_id < 2 then source_id * 8 else 0)
    let error_block_addr := readLE m start_addr 8
    let read_ack_register_addr :=
      start_addr + ACPI_GHES_ERROR_SOURCE_COUNT * 8
    let read_ack_register := readLE m read_ack_register_addr 8
    if read_ack_register = 0 then
      (1, m)
    else if error_block_addr ≠ 0 then
      let m1 := writeBytes m read_ack_register_addr (uIntLE 0 8)
      acpi_ghes_record_mem_error error_block_addr physical_address m1
    else
      (1, m)
  else
    (1, m)

/-! Basic facts about the byte primitives. -/

theorem uIntLE_length (v n : Nat) : (uIntLE v n).length = n := by
  induction n generalizing v with
  | zero => rfl
  | succ n ih => simp [uIntLE, ih]

theorem uIntLE_getD (v n i : Nat) (h : i < n) :
    (uIntLE v n).getD i 0 = v / 256 ^ i % 256 := by
  induction n generalizing v i with
  | zero => omega
  | succ n ih =>
    cases i with
    | zero => simp [uIntLE]
    | succ i =>
      have := ih (v / 256) i (by omega)
      simp only [uIntLE, List.getD_cons_succ, this]
      rw [Nat.div_div_eq_div_mul, pow_succ, mul_comm 256 (256 ^ i)]

theorem writeBytes_getD (m : Mem) (a : Nat) (bs : List Nat) (i : Nat)
    (h : i < bs.length) : writeBytes m a bs (a + i) = bs.getD i 0 := by
  unfold writeBytes
  rw [if_pos (by omega)]
  congr 1
  omega

theorem writeBytes_outside (m : Mem) (a : Nat) (bs : List Nat) (x : Nat)
    (h : x < a ∨ a + bs.length ≤ x) : writeBytes m a bs x = m x := by
  unfold writeBytes
  rw [if_neg (by omega)]

theorem readLE_congr (m1 m2 : Mem) (n : Nat) :
    ∀ a, (∀ i, i < n → m1 (a + i) = m2 (a + i)) →
    readLE m1 a n = readLE m2 a n := by
  induction n with
  | zero => intro a h; rfl
  | succ n ih =>
    intro a h
    have h0 : m1 a = m2 a := by have := h 0 (by omega); simpa using this
    have ht : readLE m1 (a + 1) n = readLE m2 (a + 1) n := by
      refine ih (a + 1) fun i hi => ?_
      have := h (i + 1) (by omega)
      rwa [show a + (i + 1) = a + 1 + i by omega] at this
    simp [readLE, h0, ht]

theorem readLE_of_bytes (m : Mem) (n : Nat) :
    ∀ v a, (∀ i, i < n → m (a + i) = v / 256 ^ i % 256) →
    readLE m a n = v % 256 ^ n := by
  induction n with
  | zero => intro v a _; simp [readLE, Nat.mod_one]
  | succ n ih =>
    intro v a h
    have h0 : m a = v % 256 := by have := h 0 (by omega); simpa using this
    have ht : readLE m (a + 1) n = v / 256 % 256 ^ n := by
      refine ih (v / 256) (a + 1) fun i hi => ?_
      have := h (i + 1) (by omega)
      rw [show a + (i + 1) = a + 1 + i by omega] at this
      rw [this, Nat.div_div_eq_div_mul, pow_succ, mul_comm 256 (256 ^ i)]
    have hsplit : v % 256 ^ (n + 1) =
        256 * (v / 256 % 256 ^ n) + v % 256 := by
      have hd : v % (256 * 256 ^ n) / 256 = v / 256 % 256 ^ n :=
        Nat.mod_mul_right_div_self v 256 (256 ^ n)
      have hm : v % (256 * 256 ^ n) % 256 = v % 256 :=
        Nat.mod_mod_of_dvd v (Dvd.intro (256 ^ n) rfl)
      have := Nat.div_add_mod (v % (256 * 256 ^ n)) 256
      rw [hd, hm] at this
      rw [pow_succ, mul_comm (256 ^ n) 256, ← this]
    simp [readLE, h0, ht, hsplit]
    omega

theorem readLE_writeBytes_of_disjoint (m : Mem) (a : Nat) (bs : List Nat)
    (b n : Nat) (h : b + n ≤ a ∨ a + bs.length ≤ b) :
    readLE (writeBytes m a bs) b n = readLE m b n := by
  refine readLE_congr _ _ n b fun i hi => ?_
  exact writeBytes_outside m a bs (b + i) (by omega)

theorem readLE_writeBytes_uIntLE (m : Mem) (a v n : Nat) :
    readLE (writeBytes m a (uIntLE v n)) a n = v % 256 ^ n := by
  refine readLE_of_bytes _ n v a fun i hi => ?_
  rw [writeBytes_getD m a _ i (by rw [uIntLE_length]; omega),
      uIntLE_getD v n i hi]

theorem readLE_lt (m : Mem) (n : Nat) : ∀ a, readLE m a n < 256 ^ n := by
  induction n with
  | zero => intro a; simp [readLE]
  | succ n ih =>
    intro a
    have h1 : m a % 256 < 256 := Nat.mod_lt _ (by omega)
    have h2 : readLE m (a + 1) n < 256 ^ n := ih (a + 1)
    have : 256 * readLE m (a + 1) n + 256 ≤ 256 * 256 ^ n := by
      have := Nat.succ_le_of_lt h2
      calc 256 * readLE m (a + 1) n + 256
          = 256 * (readLE m (a + 1) n + 1) := by ring
        _ ≤ 256 * 256 ^ n := Nat.mul_le_mul_left 256 this
    simp only [readLE]
    rw [pow_succ, mul_comm (256 ^ n) 256]
    omega

theorem readLE_of_list (l : List Nat) (m : Mem) (a : Nat) (o n : Nat)
    (hm : ∀ i, i < n → m (a + o + i) = l.getD (o + i) 0)
    (v : Nat) (hv : ∀ i, i < n → l.getD (o + i) 0 = v / 256 ^ i % 256) :
    readLE m (a + o) n = v % 256 ^ n := by
  refine readLE_of_bytes _ n v (a + o) fun i hi => ?_
  rw [hm i hi, hv i hi]

/-- The all-zero guest memory, used to set up concrete scenarios. -/
def zeroMem : Mem := fun _ => 0

/-- Concrete region state for the memory-error scenario: region base 0,
`error_block_address[0] = 0x2000` and `read_ack_register[0] = 1`. -/
def memScenarioMem : Mem :=
  writeBytes (writeBytes zeroMem 0 (uIntLE 0x2000 8)) 16 (uIntLE 1 8)

set_option maxRecDepth 100000 in
/-- C3: with the ack flag 1 and a memory error at physical address 0x1000
recorded for source 0, the call succeeds (returns 0) and the slot starts
with block_status = 1, data_length = 152, error_severity = 0, and at offset
92 the memory CPER decodes to validity bits 0x4002 and (at its physical
address field, offset 108) physical address 0x1000. -/
theorem mem_record_scenario :
    (acpi_ghes_record_errors 0 0 0x1000 memScenarioMem).1 = 0 ∧
    readLE (acpi_ghes_record_errors 0 0 0x1000 memScenarioMem).2 0x2000 4
      = ACPI_GEBS_UNCORRECTABLE ∧
    readLE (acpi_ghes_record_errors 0 0 0x1000 memScenarioMem).2
      (0x2000 + 12) 4 = 152 ∧
    readLE (acpi_ghes_record_errors 0 0 0x1000 memScenarioMem).2
      (0x2000 + 16) 4 = ACPI_CPER_SEV_RECOVERABLE ∧
    readLE (acpi_ghes_record_errors 0 0 0x1000 memScenarioMem).2
      (0x2000 + 92) 8 = 0x4002 ∧
    readLE (acpi_ghes_record_errors 0 0 0x1000 memScenarioMem).2
      (0x2000 + 108) 8 = 0x1000 := by
  refine ⟨by decide, by decide, by decide, by decide, by decide, by decide⟩

/-- C10: recording a memory error with physical address 0 does nothing:
no guest-memory write, no ack-flag access, and the nonzero (failure) return
value, whatever the ack flag holds. -/
theorem mem_record_zero_address_noop (base source_id : Nat) (m : Mem)
    (_h : source_id < 2) :
    acpi_ghes_record_errors base source_id 0 m = (1, m) := by
  simp [acpi_ghes_record_errors]

/-- Witness for `mem_record_zero_address_noop` at source 0, base 0, zero
memory. -/
theorem mem_record_zero_address_noop_witness :
    (0 : Nat) < 2 ∧ acpi_ghes_record_errors 0 0 0 zeroMem = (1, zeroMem) :=
  ⟨by decide, mem_record_zero_address_noop 0 0 zeroMem (by decide)⟩

/-! PCI device model.  Capability offsets are the results of the external
helpers `pci_find_capability` / `pcie_find_capability` / `pcie_find_dvsec`
(0 meaning the capability is absent), the identity fields mirror
`PCIDeviceClass` and the bus lookups, and `config` is the device's
configuration space as a byte map. -/

/-- RAS capability register values read from
`ct3d->cxl_cstate.crb.cache_mem_registers` at the `R_CXL_RAS_*` indices
(register block declared outside `src/`), in the order ghes.c reads them. -/
structure CXLRasRegs where
  unc_err_status : Nat
  unc_err_mask : Nat
  unc_err_severity : Nat
  cor_err_status : Nat
  cor_err_mask : Nat
  err_cap_ctrl : Nat

/-- Result of the `object_dynamic_cast` classification chain in
`build_append_cxl_cper` (ghes.c lines 338-346); a type-3 device carries
its RAS register snapshot. -/
inductive CXLRole where
  | type3 (ras : CXLRasRegs)
  | usp
  | dsp
  | rootport
  | other

/-- The slice of a `PCIDevice` that the CPER encoders consume. -/
structure PCIDev where
  pcie_cap_offset : Nat
  sn_cap_offset : Nat
  aer_cap_offset : Nat
  cxl_dvsec_offset : Nat
  config : Nat → Nat
  vendor_id : Nat
  device_id : Nat
  class_id : Nat
  subsystem_vendor_id : Nat
  subsystem_id : Nat
  devfn : Nat
  bus_num : Nat
  cxl_role : CXLRole

/-- One byte of configuration space. -/
def cfgByte (dev : PCIDev) (off : Nat) : Nat := dev.config off % 256

/-- `pci_get_word(dev->config + off)` (little-endian 16-bit read). -/
def cfgWord (dev : PCIDev) (off : Nat) : Nat :=
  cfgByte dev off + 256 * cfgByte dev (off + 1)

/-- `pci_get_long(dev->config + off)` (little-endian 32-bit read). -/
def cfgLong (dev : PCIDev) (off : Nat) : Nat :=
  cfgByte dev off + 256 * cfgByte dev (off + 1)
    + 65536 * cfgByte dev (off + 2) + 16777216 * cfgByte dev (off + 3)

/-- `PCI_FUNC(dev->devfn)`. -/
def pciFunc (dev : PCIDev) : Nat := dev.devfn % 8

/-- `PCI_SLOT(dev->devfn)`. -/
def pciSlot (dev : PCIDev) : Nat := dev.devfn / 8 % 32

/-- Dump of `n` 32-bit words of config space starting at `off`, as in the
PCIe/AER capability loops of `build_append_aer_cper`. -/
def cfgDumpWords (dev : PCIDev) (off n : Nat) : List Nat :=
  (List.range n).flatMap fun i => uIntLE (cfgLong dev (off + 4 * i)) 4

/-- PCI Express AER section encoder, `build_append_aer_cper`
(ghes.c lines 192-282).  The PCI register constants PCI_EXP_FLAGS (2),
PCI_COMMAND (4) and PCI_STATUS (6) come from the standard PCI headers
(outside `src/`).  Note the Port Type field is appended only when the PCIe
capability exists. -/
def build_append_aer_cper (dev : PCIDev) : List Nat :=
  uIntLE ((if dev.pcie_cap_offset ≠ 0 then 1 else 0)
      + 2 + 4 + 8
      + (if dev.sn_cap_offset ≠ 0 then 16 else 0)
      + (if dev.pcie_cap_offset ≠ 0 then 64 else 0)
      + (if dev.aer_cap_offset ≠ 0 then 128 else 0)) 8
    ++ (if dev.pcie_cap_offset ≠ 0 then
          uIntLE (cfgWord dev (dev.pcie_cap_offset + 2) % 65536 / 16 % 16) 4
        else [])
    ++ uIntLE 1 1 ++ uIntLE 6 1 ++ uIntLE 0 2
    ++ uIntLE (cfgWord dev 4) 2 ++ uIntLE (cfgWord dev 6) 2 ++ uIntLE 0 4
    ++ uIntLE dev.vendor_id 2 ++ uIntLE dev.device_id 2
    ++ uIntLE dev.class_id 3
    ++ uIntLE (pciFunc dev) 1 ++ uIntLE (pciSlot dev) 1 ++ uIntLE 0 2
    ++ uIntLE dev.bus_num 1 ++ uIntLE 0 1 ++ uIntLE 0 2 ++ uIntLE 0 1
    ++ (if dev.sn_cap_offset ≠ 0 then
          uIntLE (cfgLong dev (dev.sn_cap_offset + 4)) 4
            ++ uIntLE (cfgLong dev (dev.sn_cap_offset + 8)) 4
        else uIntLE 0 8)
    ++ uIntLE 0 4
    ++ (if dev.pcie_cap_offset ≠ 0 then
          cfgDumpWords dev dev.pcie_cap_offset 15
        else uIntLE 0 60)
    ++ (if dev.aer_cap_offset ≠ 0 then
          cfgDumpWords dev dev.aer_cap_offset 24
        else uIntLE 0 96)

theorem cfgDumpWords_length (dev : PCIDev) (off n : Nat) :
    (cfgDumpWords dev off n).length = 4 * n := by
  induction n with
  | zero => rfl
  | succ n ih =>
    unfold cfgDumpWords at ih ⊢
    rw [List.range_succ, List.flatMap_append, List.length_append, ih]
    simp [uIntLE_length]
    omega

theorem build_append_aer_cper_length (dev : PCIDev) :
    (build_append_aer_cper dev).length =
      if dev.pcie_cap_offset ≠ 0 then 208 else 204 := by
  by_cases h : dev.pcie_cap_offset ≠ 0 <;>
    by_cases h2 : dev.sn_cap_offset ≠ 0 <;>
    by_cases h3 : dev.aer_cap_offset ≠ 0 <;>
    simp [build_append_aer_cper, h, h2, h3, uIntLE_length,
      cfgDumpWords_length]

/-- A PCI device with no PCIe, serial-number or AER capability and an
all-zero configuration space. -/
def devNoPcieCap : PCIDev :=
  ⟨0, 0, 0, 0, fun _ => 0, 0, 0, 0, 0, 0, 0, 0, CXLRole.other⟩

/-- C6 (failing input): on a device without the PCIe capability the AER
section encoder emits 204 bytes, not the fixed 208: the 4-byte Port Type
field is omitted rather than zero-filled. -/
theorem aer_cper_len_no_pcie_cap :
    (build_append_aer_cper devNoPcieCap).length = 204 ∧ (204 : Nat) ≠ 208 := by
  refine ⟨?_, by decide⟩
  rw [build_append_aer_cper_length]
  rfl

/-- The `error_source_to_index` table (ghes.c lines 888-889): notification
type 7 (GPIO) maps to source index 1, type 8 (SEA) to index 0, everything
else in range is unsupported (0xff). -/
def error_source_to_index : List Nat :=
  [0xff, 0xff, 0xff, 0xff, 0xff, 0xff, 0xff, 1, 0]

/-- Source resolution, `ghes_get_addr` (ghes.c lines 891-918), returning
`(error_block_addr, read_ack_register_addr)`.  Modelled from the spec:
the guard constant `ACPI_GHES_NOTIFY_RESERVED` is declared in a header
outside `src/`; per the spec every notification value outside the
supported set resolves to not-found, so the guard is modelled as the
table's range. -/
def ghes_get_addr (base notify : Nat) : Option (Nat × Nat) :=
  if error_source_to_index.length ≤ notify then none
  else if error_source_to_index.getD notify 0xff = 0xff then none
  else
    let idx := error_source_to_index.getD notify 0xff
    some (base + ACPI_GHES_ERROR_SOURCE_COUNT * 8
            + ACPI_GHES_ERROR_SOURCE_COUNT * 8
            + idx * ACPI_GHES_MAX_RAW_DATA_LENGTH,
          base + ACPI_GHES_ERROR_SOURCE_COUNT * 8 + idx * 8)

theorem ghes_get_addr_some (base n : Nat) (p : Nat × Nat)
    (h : ghes_get_addr base n = some p) :
    (n = 7 ∧ p.1 = base + 1056 ∧ p.2 = base + 24) ∨
    (n = 8 ∧ p.1 = base + 32 ∧ p.2 = base + 16) := by
  unfold ghes_get_addr at h
  by_cases h9 : error_source_to_index.length ≤ n
  · rw [if_pos h9] at h
    exact absurd h (by simp)
  · have h9' : n < 9 := by
      simpa [error_source_to_index] using Nat.lt_of_not_le h9
    rw [if_neg h9] at h
    interval_cases n <;>
      simp_all [error_source_to_index, ACPI_GHES_ERROR_SOURCE_COUNT,
        ACPI_GHES_MAX_RAW_DATA_LENGTH, Prod.ext_iff]

/-- C7: unsupported notification values resolve to none, and the supported
ones (7 = GPIO, 8 = SEA) resolve to block/ack addresses that never alias:
distinct ack registers, distinct block addresses, and the two
`MAX_RAW_DATA_LENGTH`-sized block regions are disjoint. -/
theorem ghes_get_addr_resolution (base : Nat) :
    (∀ n, ¬(n = 7 ∨ n = 8) → ghes_get_addr base n = none) ∧
    (∀ n1 n2 p1 p2, ghes_get_addr base n1 = some p1 →
      ghes_get_addr base n2 = some p2 → n1 ≠ n2 →
      p1.1 ≠ p2.1 ∧ p1.2 ≠ p2.2 ∧
      (p1.1 + ACPI_GHES_MAX_RAW_DATA_LENGTH ≤ p2.1 ∨
       p2.1 + ACPI_GHES_MAX_RAW_DATA_LENGTH ≤ p1.1)) := by
  constructor
  · intro n hn
    by_cases h9 : error_source_to_index.length ≤ n
    · unfold ghes_get_addr
      rw [if_pos h9]
    · have h9' : n < 9 := by
        simpa [error_source_to_index] using Nat.lt_of_not_le h9
      interval_cases n <;> simp_all <;> rfl
  · intro n1 n2 p1 p2 h1 h2 hne
    rcases ghes_get_addr_some base n1 p1 h1 with ⟨e1, q1, r1⟩ | ⟨e1, q1, r1⟩ <;>
      rcases ghes_get_addr_some base n2 p2 h2 with ⟨e2, q2, r2⟩ | ⟨e2, q2, r2⟩ <;>
      simp [ACPI_GHES_MAX_RAW_DATA_LENGTH, q1, r1, q2, r2] <;> omega

/-- Witness for `ghes_get_addr_resolution` at base 0: notify 3 is
unsupported, and the two supported sources resolved at base 0 do not
alias. -/
theorem ghes_get_addr_resolution_witness :
    ghes_get_addr 0 3 = none ∧
    ((1056 : Nat) ≠ 32 ∧ (24 : Nat) ≠ 16 ∧
      ((1056 : Nat) + ACPI_GHES_MAX_RAW_DATA_LENGTH ≤ 32 ∨
       (32 : Nat) + ACPI_GHES_MAX_RAW_DATA_LENGTH ≤ 1056)) := by
  constructor
  · exact (ghes_get_addr_resolution 0).1 3 (by decide)
  · have h := (ghes_get_addr_resolution 0).2 7 8 (1056, 24) (32, 16)
      (by decide) (by decide) (by decide)
    exact h

/-- PCIe AER section type UUID bytes (ghes.c lines 510-513). -/
def aer_section_id_le : List Nat :=
  [0x54, 0xE9, 0x95, 0xD9, 0xC1, 0xBB, 0x0F, 0x43,
   0xAD, 0x91, 0xB4, 0x4D, 0xCB, 0x3C, 0x6F, 0x35]

/-- The block built by `ghes_record_aer_error` (ghes.c lines 534-540) for a
given `data_length`: status block, data entry declaring a 208-byte AER
payload, then the AER CPER. -/
def aer_record_block (dev : PCIDev) (data_length : Nat) : List Nat :=
  acpi_ghes_generic_error_status ACPI_GEBS_UNCORRECTABLE 0 0 data_length
      ACPI_CPER_SEV_RECOVERABLE
    ++ acpi_ghes_generic_error_data aer_section_id_le
      ACPI_CPER_SEV_RECOVERABLE 0 0 ACPI_GHES_PCIE_CPER_LENGTH fru_id_zero 0
    ++ build_append_aer_cper dev

/-- `ghes_record_aer_error` (ghes.c lines 508-545): reads the 32-bit word at
slot offset 8 (the status block's Raw Data Length field, which this code
always writes as 0), adds 72 + 208 in 32-bit arithmetic, rejects the record
when `data_length + 20` exceeds 1024, and otherwise writes the freshly
built block.  Returns `true` on success, `false` on the capacity failure. -/
def ghes_record_aer_error (dev : PCIDev) (error_block_address : Nat)
    (m : Mem) : Bool × Mem :=
  let data_length := (readLE m (error_block_address + 8) 4
    + ACPI_GHES_DATA_LENGTH + ACPI_GHES_PCIE_CPER_LENGTH) % 2 ^ 32
  if ACPI_GHES_MAX_RAW_DATA_LENGTH
      < (data_length + ACPI_GHES_GESB_SIZE) % 2 ^ 32 then
    (false, m)
  else
    (true, writeBytes m error_block_address (aer_record_block dev data_length))

/-- `ghes_record_aer_errors` (ghes.c lines 920-948): resolve the notify
value, fail if unresolved; if the ack flag is zero, force it to 1 and fail;
otherwise clear the flag and record.  The C routine moves the 8-byte ack
register through a 4-byte `int` local; it is modelled as the full 64-bit
register, which coincides for the 0/1 flag values the protocol uses. -/
def ghes_record_aer_errors (base : Nat) (dev : PCIDev) (notify : Nat)
    (m : Mem) : Bool × Mem :=
  match ghes_get_addr base notify with
  | none => (false, m)
  | some (error_block_addr, read_ack_register_addr) =>
    if readLE m read_ack_register_addr 8 = 0 then
      (false, writeBytes m read_ack_register_addr (uIntLE 1 8))
    else
      ghes_record_aer_error dev error_block_addr
        (writeBytes m read_ack_register_addr (uIntLE 0 8))

/-- CXL protocol error section type UUID bytes (ghes.c lines 598-602). -/
def cxl_prot_section_id_le : List Nat :=
  [0xB4, 0xEF, 0xB9, 0x80, 0xB5, 0x52, 0xE3, 0x4D,
   0xA7, 0x77, 0x68, 0x78, 0x4B, 0x77, 0x10, 0x48]

/-- CXL_RAS_ERR_HEADER_NUM from `hw/cxl/cxl_device.h` (outside `src/`). -/
def CXL_RAS_ERR_HEADER_NUM : Nat := 32

/-- Agent type code from the `object_dynamic_cast` chain in
`build_append_cxl_cper` (ghes.c lines 335-346). -/
def cxlAgentType : CXLRole → Nat
  | CXLRole.type3 _ => 2
  | CXLRole.usp => 7
  | CXLRole.dsp => 6
  | CXLRole.rootport => 5
  | CXLRole.other => 0xff

/-- DVSEC length: bits 31:20 of the dword at `cxl_dvsec_offset + 4`
(ghes.c lines 354-356); 0 when the device exposes no CXL DVSEC. -/
def cxlDvsecLen (dev : PCIDev) : Nat :=
  if dev.cxl_dvsec_offset ≠ 0 then
    cfgLong dev (dev.cxl_dvsec_offset + 4) / 2 ^ 20
  else 0

/-- CXL protocol error section encoder, `build_append_cxl_cper`
(ghes.c lines 327-459).  `cxl_err` models the optional `CXLError` whose
`header` array of `CXL_RAS_ERR_HEADER_NUM` dwords is dumped for type-3
devices.  The DVSEC dump appends whole dwords while `i < cxl_dvsec_len`,
i.e. `ceil(len/4)` dwords. -/
def build_append_cxl_cper (dev : PCIDev) (cxl_err : Option (Nat → Nat)) :
    List Nat :=
  let t := cxlAgentType dev.cxl_role
  let dvlen := cxlDvsecLen dev
  uIntLE ((if t ≠ 0xff then 1 else 0) + 2 + 4
      + (if dev.sn_cap_offset ≠ 0 then 8 else 0) + 16
      + (if dev.cxl_dvsec_offset ≠ 0 then 32 else 0) + 64) 8
    ++ uIntLE t 1
    ++ uIntLE 0 7
    ++ uIntLE (pciFunc dev) 1 ++ uIntLE (pciSlot dev) 1
    ++ uIntLE dev.bus_num 1 ++ uIntLE 0 2
    ++ uIntLE 0 3
    ++ uIntLE dev.vendor_id 2 ++ uIntLE dev.device_id 2
    ++ uIntLE dev.subsystem_vendor_id 2 ++ uIntLE dev.subsystem_id 2
    ++ uIntLE dev.class_id 2
    ++ uIntLE 0 2
    ++ uIntLE 0 4
    ++ (if dev.sn_cap_offset ≠ 0 then
          uIntLE (cfgLong dev (dev.sn_cap_offset + 4)) 4
            ++ uIntLE (cfgLong dev (dev.sn_cap_offset + 8)) 4
        else uIntLE 0 8)
    ++ (if dev.pcie_cap_offset ≠ 0 then
          cfgDumpWords dev dev.pcie_cap_offset 15
        else uIntLE 0 60)
    ++ uIntLE dvlen 2
    ++ uIntLE 0x18 2
    ++ uIntLE 0 4
    ++ ((List.range ((dvlen + 3) / 4)).flatMap fun i =>
          uIntLE (cfgLong dev (dev.cxl_dvsec_offset + 4 * i)) 4)
    ++ (match dev.cxl_role with
        | CXLRole.type3 ras =>
            uIntLE ras.unc_err_status 4 ++ uIntLE ras.unc_err_mask 4
              ++ uIntLE ras.unc_err_severity 4 ++ uIntLE ras.cor_err_status 4
              ++ uIntLE ras.cor_err_mask 4 ++ uIntLE ras.err_cap_ctrl 4
              ++ (match cxl_err with
                  | some hdr => (List.range CXL_RAS_ERR_HEADER_NUM).flatMap
                      fun i => uIntLE (hdr i) 4
                  | none => uIntLE 0 (4 * CXL_RAS_ERR_HEADER_NUM))
        | _ => uIntLE 0 (0x18 + 512))

/-- The block built by `ghes_record_cxl_error` (ghes.c lines 623-632): the
data entry still declares the fixed 208-byte PCIe CPER length (the code
marks this "TO FIX: Error record dependent") while the payload is the
variable-length CXL CPER. -/
def cxl_record_block (dev : PCIDev) (cxl_err : Option (Nat → Nat))
    (data_length : Nat) : List Nat :=
  acpi_ghes_generic_error_status ACPI_GEBS_UNCORRECTABLE 0 0 data_length
      ACPI_CPER_SEV_RECOVERABLE
    ++ acpi_ghes_generic_error_data cxl_prot_section_id_le
      ACPI_CPER_SEV_RECOVERABLE 0 0 ACPI_GHES_PCIE_CPER_LENGTH fru_id_zero 0
    ++ build_append_cxl_cper dev cxl_err

/-- `ghes_record_cxl_error` (ghes.c lines 593-637): same capacity check as
the AER path, assuming a fixed 208-byte payload, then writes the CXL
block.  Returns `true` on success, `false` on the capacity failure. -/
def ghes_record_cxl_error (dev : PCIDev) (cxl_err : Option (Nat → Nat))
    (error_block_address : Nat) (m : Mem) : Bool × Mem :=
  let data_length := (readLE m (error_block_address + 8) 4
    + ACPI_GHES_DATA_LENGTH + ACPI_GHES_PCIE_CPER_LENGTH) % 2 ^ 32
  if ACPI_GHES_MAX_RAW_DATA_LENGTH
      < (data_length + ACPI_GHES_GESB_SIZE) % 2 ^ 32 then
    (false, m)
  else
    (true, writeBytes m error_block_address
      (cxl_record_block dev cxl_err data_length))

/-- `ghes_record_cxl_errors` (ghes.c lines 981-1009); the unused
`PCIEAERErr` argument is dropped.  The ack register is modelled as in
`ghes_record_aer_errors`. -/
def ghes_record_cxl_errors (base : Nat) (dev : PCIDev)
    (cxl_err : Option (Nat → Nat)) (notify : Nat) (m : Mem) : Bool × Mem :=
  match ghes_get_addr base notify with
  | none => (false, m)
  | some (error_block_addr, read_ack_register_addr) =>
    if readLE m read_ack_register_addr 8 = 0 then
      (false, writeBytes m read_ack_register_addr (uIntLE 1 8))
    else
      ghes_record_cxl_error dev cxl_err error_block_addr
        (writeBytes m read_ack_register_addr (uIntLE 0 8))

/-- CXL general media event section type UUID bytes (ghes.c lines 554-558). -/
def gm_section_id_le : List Nat :=
  [0x77, 0x0a, 0xcd, 0xfb, 0x60, 0xc2, 0x7f, 0x41,
   0x85, 0xa9, 0x08, 0x8b, 0x16, 0x21, 0xeb, 0xa6]

/-- Modelled from the spec: `CXLEventGenMedia` is declared in a header
outside `src/`; `build_append_cxl_event_cper` copies its bytes from
`offsetof(hdr.length)` (16) up to `sizeof` (128), so the event contributes
its trailing 112 bytes, kept here as `tail`. -/
structure CXLEventGenMedia where
  tail : List Nat

/-- CXL event section encoder, `build_append_cxl_event_cper`
(ghes.c lines 284-325): fixed 0x90 length dword, validity bits, device id,
serial number (zero-filled if absent), then the event bytes. -/
def build_append_cxl_event_cper (dev : PCIDev) (gem : CXLEventGenMedia) :
    List Nat :=
  uIntLE 0x90 4
    ++ uIntLE (1 + (if dev.sn_cap_offset ≠ 0 then 2 else 0) + 4) 8
    ++ uIntLE dev.vendor_id 2 ++ uIntLE dev.device_id 2
    ++ uIntLE (pciFunc dev) 1 ++ uIntLE (pciSlot dev) 1
    ++ uIntLE dev.bus_num 1 ++ uIntLE 0 2
    ++ uIntLE 0 2
    ++ uIntLE 0 1
    ++ (if dev.sn_cap_offset ≠ 0 then
          uIntLE (cfgLong dev (dev.sn_cap_offset + 4)) 4
            ++ uIntLE (cfgLong dev (dev.sn_cap_offset + 8)) 4
        else uIntLE 0 8)
    ++ gem.tail.map (fun b => b % 256)

/-- The block built by `ghes_record_cxl_gen_media` (ghes.c lines 575-585). -/
def gm_record_block (dev : PCIDev) (gem : CXLEventGenMedia)
    (data_length : Nat) : List Nat :=
  acpi_ghes_generic_error_status ACPI_GEBS_UNCORRECTABLE 0 0 data_length
      ACPI_CPER_SEV_RECOVERABLE
    ++ acpi_ghes_generic_error_data gm_section_id_le
      ACPI_CPER_SEV_RECOVERABLE 0 0 0x90 fru_id_zero 0
    ++ build_append_cxl_event_cper dev gem

/-- `ghes_record_cxl_gen_media` (ghes.c lines 547-591): the C function is
declared `int` and returns `false` (0) on the capacity failure but also 0
on the successful write, so every path yields 0. -/
def ghes_record_cxl_gen_media (dev : PCIDev) (gem : CXLEventGenMedia)
    (error_block_address : Nat) (m : Mem) : Nat × Mem :=
  let data_length := (readLE m (error_block_address + 8) 4
    + ACPI_GHES_DATA_LENGTH + 0x90) % 2 ^ 32
  if ACPI_GHES_MAX_RAW_DATA_LENGTH
      < (data_length + ACPI_GHES_GESB_SIZE) % 2 ^ 32 then
    (0, m)
  else
    (0, writeBytes m error_block_address (gm_record_block dev gem data_length))

/-- `ghes_record_cxl_event_gm` (ghes.c lines 950-979): the bool wrapper
converts `ghes_record_cxl_gen_media`'s `int` result, so nonzero would mean
success.  The ack register is modelled as in `ghes_record_aer_errors`. -/
def ghes_record_cxl_event_gm (base : Nat) (dev : PCIDev)
    (gem : CXLEventGenMedia) (notify : Nat) (m : Mem) : Bool × Mem :=
  match ghes_get_addr base notify with
  | none => (false, m)
  | some (error_block_addr, read_ack_register_addr) =>
    if readLE m read_ack_register_addr 8 = 0 then
      (false, writeBytes m read_ack_register_addr (uIntLE 1 8))
    else
      let r := ghes_record_cxl_gen_media dev gem error_block_addr
        (writeBytes m read_ack_register_addr (uIntLE 0 8))
      (decide (r.1 ≠ 0), r.2)

/-- The hardware-errors fw_cfg blob built by `build_ghes_error_table`
(ghes.c lines 644-692): per source an 8-byte error block address (0 until
firmware patches it), then per source an 8-byte read-ack register
initialized to 1, then the `acpi_data_push` zero reservation of
`MAX_RAW_DATA_LENGTH` bytes per source. -/
def build_ghes_error_table : List Nat :=
  ((List.range ACPI_GHES_ERROR_SOURCE_COUNT).flatMap fun _ => uIntLE 0 8)
    ++ ((List.range ACPI_GHES_ERROR_SOURCE_COUNT).flatMap fun _ => uIntLE 1 8)
    ++ List.replicate
      (ACPI_GHES_MAX_RAW_DATA_LENGTH * ACPI_GHES_ERROR_SOURCE_COUNT) 0

/-- The blob viewed as a memory image starting at offset 0. -/
def tableMem : Mem := fun x => build_ghes_error_table.getD x 0

theorem ghes_error_table_head_length :
    (((List.range ACPI_GHES_ERROR_SOURCE_COUNT).flatMap fun _ => uIntLE 0 8)
      ++ ((List.range ACPI_GHES_ERROR_SOURCE_COUNT).flatMap
        fun _ => uIntLE 1 8)).length = 32 := by
  decide

set_option maxRecDepth 10000 in
/-- C9: the error-region blob is 2 x N x 8 + N x 1024 bytes (N = 2), laid
out as the two 8-byte error-block address entries (zero until patched),
the two 8-byte read-ack registers (initialized to 1), then the two
1024-byte slots, all zero. -/
theorem ghes_error_table_layout :
    build_ghes_error_table.length =
      2 * ACPI_GHES_ERROR_SOURCE_COUNT * 8
        + ACPI_GHES_ERROR_SOURCE_COUNT * ACPI_GHES_MAX_RAW_DATA_LENGTH ∧
    readLE tableMem 0 8 = 0 ∧ readLE tableMem 8 8 = 0 ∧
    readLE tableMem 16 8 = 1 ∧ readLE tableMem 24 8 = 1 ∧
    build_ghes_error_table.drop 32 =
      List.replicate (ACPI_GHES_ERROR_SOURCE_COUNT
        * ACPI_GHES_MAX_RAW_DATA_LENGTH) 0 := by
  have hsplit : build_ghes_error_table =
      (((List.range ACPI_GHES_ERROR_SOURCE_COUNT).flatMap fun _ => uIntLE 0 8)
        ++ ((List.range ACPI_GHES_ERROR_SOURCE_COUNT).flatMap
          fun _ => uIntLE 1 8))
      ++ List.replicate
        (ACPI_GHES_MAX_RAW_DATA_LENGTH * ACPI_GHES_ERROR_SOURCE_COUNT) 0 := by
    rw [build_ghes_error_table, List.append_assoc]
  refine ⟨?_, by decide, by decide, by decide, by decide, ?_⟩
  · rw [hsplit, List.length_append, ghes_error_table_head_length,
      List.length_replicate]
    decide
  · rw [hsplit, ← ghes_error_table_head_length, List.drop_left]
    rw [Nat.mul_comm]

/-- A CXL root port whose CXL DVSEC declares the maximum length 4095
(dword at `cxl_dvsec_offset + 4` = 0xFFF00000) and whose config space
holds the byte 0xAB at offset 0x5B0, which the DVSEC dump copies to
record offset 1408. -/
def devBigDvsec : PCIDev :=
  ⟨0, 0, 0, 0x100,
   fun x => if x = 0x106 then 0xF0 else if x = 0x107 then 0xFF
     else if x = 0x5B0 then 0xAB else 0,
   0, 0, 0, 0, 0, 0, 0, CXLRole.rootport⟩

theorem flatMap_uIntLE4_length (f : Nat → Nat) (n : Nat) :
    ((List.range n).flatMap fun i => uIntLE (f i) 4).length = 4 * n := by
  induction n with
  | zero => rfl
  | succ n ih =>
    rw [List.range_succ, List.flatMap_append, List.length_append, ih]
    simp [uIntLE_length]
    omega

theorem map_length_uIntLE4_sum (f : Nat → Nat) (n : Nat) :
    (List.map (List.length ∘ fun i => uIntLE (f i) 4) (List.range n)).sum
      = 4 * n := by
  have h : (List.length ∘ fun i => uIntLE (f i) 4) = fun _ => 4 :=
    funext fun i => uIntLE_length (f i) 4
  rw [h, List.map_const', List.sum_replicate, List.length_range, smul_eq_mul,
    Nat.mul_comm]

set_option maxRecDepth 10000 in
/-- C1 (failing input): on a device with the maximum DVSEC length the CXL
protocol recorder's capacity check still passes (it assumes a fixed
208-byte payload) and the record is written: the slot receives the whole
4840-byte block, far past `MAX_RAW_DATA_LENGTH`. -/
theorem cxl_record_overflows_slot :
    ghes_record_cxl_error devBigDvsec none 0x2000 zeroMem =
      (true, writeBytes zeroMem 0x2000 (cxl_record_block devBigDvsec none 280)) ∧
    (cxl_record_block devBigDvsec none 280).length = 4840 ∧
    ACPI_GHES_MAX_RAW_DATA_LENGTH < 4840 := by
  refine ⟨?_, ?_, by decide⟩
  · have hread : (readLE zeroMem (0x2000 + 8) 4 + ACPI_GHES_DATA_LENGTH
        + ACPI_GHES_PCIE_CPER_LENGTH) % 2 ^ 32 = 280 := by decide
    rw [ghes_record_cxl_error, hread]
    rfl
  · have hdv : cxlDvsecLen devBigDvsec = 4095 := by decide
    simp [cxl_record_block, build_append_cxl_cper,
      acpi_ghes_generic_error_status, acpi_ghes_generic_error_data,
      uIntLE_length, fru_id_zero, cxl_prot_section_id_le,
      cxlAgentType, hdv, flatMap_uIntLE4_length,
      show devBigDvsec.sn_cap_offset = 0 from rfl,
      show devBigDvsec.pcie_cap_offset = 0 from rfl,
      show devBigDvsec.cxl_role = CXLRole.rootport from rfl]
    rw [map_length_uIntLE4_sum]

/-- Region state for the CXL general-media scenario: base 0, ack register
of source index 1 (notify 7, at offset 24) set to 1. -/
def gmScenarioMem : Mem := writeBytes zeroMem 24 (uIntLE 1 8)

/-- The concrete 112-byte (all zero) event tail used in the media-event
scenario. -/
def gmEventZero : CXLEventGenMedia := ⟨List.replicate 112 0⟩

set_option maxRecDepth 1000000 in
/-- C8 (failing input): with the ack flag ready the CXL general-media
record is encoded and written (block_status 1 and data_length 216 appear
in the slot, the flag is cleared), yet `ghes_record_cxl_event_gm` returns
false, because `ghes_record_cxl_gen_media` returns 0 on success and the
bool caller treats 0 as failure. -/
theorem cxl_gen_media_success_returns_false :
    (ghes_record_cxl_event_gm 0 devNoPcieCap gmEventZero 7 gmScenarioMem).1
      = false ∧
    readLE (ghes_record_cxl_event_gm 0 devNoPcieCap gmEventZero 7
      gmScenarioMem).2 1056 4 = ACPI_GEBS_UNCORRECTABLE ∧
    readLE (ghes_record_cxl_event_gm 0 devNoPcieCap gmEventZero 7
      gmScenarioMem).2 (1056 + 12) 4 = 216 ∧
    readLE (ghes_record_cxl_event_gm 0 devNoPcieCap gmEventZero 7
      gmScenarioMem).2 24 8 = 0 := by
  refine ⟨by decide, by decide, by decide, by decide⟩

/-- Region state with `error_block_address[0] = 0x2000` but the source-0
ack register still 0. -/
def memAckZeroMem : Mem := writeBytes zeroMem 0 (uIntLE 0x2000 8)

set_option maxRecDepth 100000 in
/-- C2 (counterexample): for the memory-error record operation with the
ack flag 0, the call fails (returns 1) but the flag is still 0 afterward:
`acpi_ghes_record_errors` never forces the flag to 1, contradicting the
claim that every record operation leaves the flag nonzero on this path. -/
theorem mem_record_ack_zero_flag_stays_zero :
    (acpi_ghes_record_errors 0 0 0x1000 memAckZeroMem).1 = 1 ∧
    readLE (acpi_ghes_record_errors 0 0 0x1000 memAckZeroMem).2 16 8 = 0 := by
  refine ⟨by decide, by decide⟩

theorem ghes_get_addr_geometry (base n : Nat) (p1 p2 : Nat)
    (h : ghes_get_addr base n = some (p1, p2)) :
    p2 + 8 ≤ p1 := by
  rcases ghes_get_addr_some base n (p1, p2) h with ⟨_, h1, h2⟩ | ⟨_, h1, h2⟩ <;>
    simp_all

/-- C4: on the capacity-exceeded path of the AER recorder (slot's length
word makes `20 + data_length` exceed 1024), the call fails, nothing is
written at or after the error block address, and the ack flag, cleared in
the preceding step, reads 0. -/
theorem aer_capacity_exceeded_no_write (base : Nat) (dev : PCIDev)
    (notify : Nat) (m : Mem) (p1 p2 : Nat)
    (hres : ghes_get_addr base notify = some (p1, p2))
    (hack : ¬readLE m p2 8 = 0)
    (hcap : ACPI_GHES_MAX_RAW_DATA_LENGTH <
      ((readLE m (p1 + 8) 4 + ACPI_GHES_DATA_LENGTH
        + ACPI_GHES_PCIE_CPER_LENGTH) % 2 ^ 32 + ACPI_GHES_GESB_SIZE)
        % 2 ^ 32) :
    (ghes_record_aer_errors base dev notify m).1 = false ∧
    readLE (ghes_record_aer_errors base dev notify m).2 p2 8 = 0 ∧
    ∀ x, p1 ≤ x → (ghes_record_aer_errors base dev notify m).2 x = m x := by
  have hgeom : p2 + 8 ≤ p1 := ghes_get_addr_geometry base notify p1 p2 hres
  have hg1 : readLE (writeBytes m p2 (uIntLE 0 8)) (p1 + 8) 4
      = readLE m (p1 + 8) 4 := by
    refine readLE_writeBytes_of_disjoint m p2 _ (p1 + 8) 4 (Or.inr ?_)
    rw [uIntLE_length]
    omega
  have hwrap : ghes_record_aer_errors base dev notify m =
      (false, writeBytes m p2 (uIntLE 0 8)) := by
    rw [ghes_record_aer_errors, hres]
    simp only [if_neg hack]
    rw [ghes_record_aer_error, hg1, if_pos hcap]
  refine ⟨by rw [hwrap], ?_, ?_⟩
  · rw [hwrap]
    simpa using readLE_writeBytes_uIntLE m p2 0 8
  · intro x hx
    rw [hwrap]
    refine writeBytes_outside m p2 _ x (Or.inr ?_)
    rw [uIntLE_length]
    omega

/-- Region state witnessing the capacity-exceeded path at base 0,
notify 8 (block 32, ack 16): ack flag 1, and the slot's word at offset 8
holding 800, so 800 + 280 + 20 = 1100 exceeds 1024. -/
def capExceededMem : Mem :=
  writeBytes (writeBytes zeroMem 16 (uIntLE 1 8)) 40 (uIntLE 800 4)

set_option maxRecDepth 10000 in
/-- Witness for `aer_capacity_exceeded_no_write` at the concrete state
`capExceededMem`, also instantiating the untouched-slot conclusion at
address 100. -/
theorem aer_capacity_exceeded_no_write_witness :
    (ghes_record_aer_errors 0 devNoPcieCap 8 capExceededMem).1 = false ∧
    readLE (ghes_record_aer_errors 0 devNoPcieCap 8 capExceededMem).2 16 8
      = 0 ∧
    (ghes_record_aer_errors 0 devNoPcieCap 8 capExceededMem).2 100
      = capExceededMem 100 := by
  have h := aer_capacity_exceeded_no_write 0 devNoPcieCap 8 capExceededMem
    32 16 (by decide) (by decide) (by decide)
  exact ⟨h.1, h.2.1, h.2.2 100 (by decide)⟩

theorem aer_record_block_length (dev : PCIDev) (dl : Nat) :
    (aer_record_block dev dl).length = 92 + (build_append_aer_cper dev).length := by
  simp [aer_record_block, acpi_ghes_generic_error_status,
    acpi_ghes_generic_error_data, uIntLE_length, fru_id_zero,
    aer_section_id_le]
  omega

theorem aer_record_block_raw_field (dev : PCIDev) (dl i : Nat) (h : i < 4) :
    (aer_record_block dev dl).getD (8 + i) 0 = 0 := by
  interval_cases i <;> rfl

theorem aer_record_block_decl_field (dev : PCIDev) (i : Nat) (h : i < 4) :
    (aer_record_block dev 280).getD (12 + i) 0 = 280 / 256 ^ i % 256 := by
  interval_cases i <;> rfl

theorem map_range_writeBytes (m : Mem) (a : Nat) (bs : List Nat) :
    (List.range bs.length).map (fun i => writeBytes m a bs (a + i)) = bs := by
  refine List.ext_getElem (by simp) ?_
  intro i h1 h2
  simp only [List.getElem_map, List.getElem_range]
  rw [writeBytes_getD m a bs i h2]
  exact List.getD_eq_getElem bs 0 h2

/-- C5: two back-to-back AER records into the same slot (ack forced ready
before each call, i.e. directly at the `ghes_record_aer_error` layer):
whenever the first call succeeds, the second also succeeds, its declared
data_length is exactly 72 + 208 (one data entry, the one written by the
second call, because the Raw Data Length word the code reads back is
always written as 0), the block it writes is 20 + 280 bytes long, and the
slot's first 20 + 280 bytes afterwards are exactly that block: the second
write fully overwrites the first record's prefix and the declared length
counts no residual bytes. -/
theorem aer_double_record_delimited (dev1 dev2 : PCIDev) (a : Nat) (m : Mem)
    (hpcie : dev2.pcie_cap_offset ≠ 0)
    (h1 : (ghes_record_aer_error dev1 a m).1 = true) :
    (ghes_record_aer_error dev2 a (ghes_record_aer_error dev1 a m).2).1
      = true ∧
    readLE (ghes_record_aer_error dev2 a
        (ghes_record_aer_error dev1 a m).2).2 (a + 12) 4
      = ACPI_GHES_DATA_LENGTH + ACPI_GHES_PCIE_CPER_LENGTH ∧
    (aer_record_block dev2
        (ACPI_GHES_DATA_LENGTH + ACPI_GHES_PCIE_CPER_LENGTH)).length
      = ACPI_GHES_GESB_SIZE
        + (ACPI_GHES_DATA_LENGTH + ACPI_GHES_PCIE_CPER_LENGTH) ∧
    (List.range (ACPI_GHES_GESB_SIZE + (ACPI_GHES_DATA_LENGTH
        + ACPI_GHES_PCIE_CPER_LENGTH))).map
      (fun i => (ghes_record_aer_error dev2 a
        (ghes_record_aer_error dev1 a m).2).2 (a + i))
      = aer_record_block dev2
        (ACPI_GHES_DATA_LENGTH + ACPI_GHES_PCIE_CPER_LENGTH) := by
  by_cases hc : ACPI_GHES_MAX_RAW_DATA_LENGTH <
      ((readLE m (a + 8) 4 + ACPI_GHES_DATA_LENGTH
        + ACPI_GHES_PCIE_CPER_LENGTH) % 2 ^ 32 + ACPI_GHES_GESB_SIZE) % 2 ^ 32
  · rw [ghes_record_aer_error, if_pos hc] at h1
    simp at h1
  have hm1 : (ghes_record_aer_error dev1 a m).2 =
      writeBytes m a (aer_record_block dev1
        ((readLE m (a + 8) 4 + ACPI_GHES_DATA_LENGTH
          + ACPI_GHES_PCIE_CPER_LENGTH) % 2 ^ 32)) := by
    rw [ghes_record_aer_error, if_neg hc]
  have hlen1 : 12 ≤ (aer_record_block dev1
      ((readLE m (a + 8) 4 + ACPI_GHES_DATA_LENGTH
        + ACPI_GHES_PCIE_CPER_LENGTH) % 2 ^ 32)).length := by
    rw [aer_record_block_length, build_append_aer_cper_length]
    split_ifs <;> omega
  have hg2 : readLE (ghes_record_aer_error dev1 a m).2 (a + 8) 4 = 0 := by
    rw [hm1]
    have h0 := readLE_of_bytes (writeBytes m a (aer_record_block dev1
      ((readLE m (a + 8) 4 + ACPI_GHES_DATA_LENGTH
        + ACPI_GHES_PCIE_CPER_LENGTH) % 2 ^ 32))) 4 0 (a + 8) ?_
    · simpa using h0
    · intro i hi
      rw [show a + 8 + i = a + (8 + i) by omega,
        writeBytes_getD _ a _ (8 + i) (by omega),
        aer_record_block_raw_field _ _ i hi]
      simp
  have hlen2 : (aer_record_block dev2 280).length = 300 := by
    rw [aer_record_block_length, build_append_aer_cper_length, if_pos hpcie]
  have hm2 : ghes_record_aer_error dev2 a
      (ghes_record_aer_error dev1 a m).2 =
      (true, writeBytes (ghes_record_aer_error dev1 a m).2 a
        (aer_record_block dev2 280)) := by
    rw [ghes_record_aer_error, hg2]
    norm_num [ACPI_GHES_DATA_LENGTH, ACPI_GHES_PCIE_CPER_LENGTH,
      ACPI_GHES_GESB_SIZE, ACPI_GHES_MAX_RAW_DATA_LENGTH]
  have hdecl : readLE (ghes_record_aer_error dev2 a
      (ghes_record_aer_error dev1 a m).2).2 (a + 12) 4 = 280 := by
    rw [hm2]
    have h0 := readLE_of_bytes (writeBytes (ghes_record_aer_error dev1 a m).2
      a (aer_record_block dev2 280)) 4 280 (a + 12) ?_
    · simpa using h0
    · intro i hi
      rw [show a + 12 + i = a + (12 + i) by omega,
        writeBytes_getD _ a _ (12 + i) (by omega),
        aer_record_block_decl_field dev2 i hi]
  refine ⟨by rw [hm2], ?_, ?_, ?_⟩
  · rw [hdecl]
    decide
  · rw [show ACPI_GHES_DATA_LENGTH + ACPI_GHES_PCIE_CPER_LENGTH = 280
      from rfl, hlen2]
    decide
  · rw [hm2]
    rw [show ACPI_GHES_DATA_LENGTH + ACPI_GHES_PCIE_CPER_LENGTH = 280
      from rfl]
    have hh : ACPI_GHES_GESB_SIZE + 280 = (aer_record_block dev2 280).length := by
      rw [hlen2]
      decide
    rw [hh]
    exact map_range_writeBytes _ a _

theorem readLE_one (m : Mem) (p : Nat) :
    readLE (writeBytes m p (uIntLE 1 8)) p 8 = 1 := by
  have h := readLE_writeBytes_uIntLE m p 1 8
  norm_num at h
  exact h

theorem readLE_zero (m : Mem) (p : Nat) :
    readLE (writeBytes m p (uIntLE 0 8)) p 8 = 0 := by
  have h := readLE_writeBytes_uIntLE m p 0 8
  norm_num at h
  exact h

set_option maxHeartbeats 1000000 in
/-- C2 (amended): the ack protocol, per operation.  For the notify-based
AER and CXL-protocol operations: ack 0 before the call gives failure with
the flag forced to 1, ack nonzero with the record written (capacity check
passing) gives success with the flag 0.  The CXL media-event operation
manipulates the flag the same way but returns failure even after writing
the record.  The memory-error operation returns failure on ack 0 but
leaves the flag unchanged at 0 instead of forcing it to 1; on ack nonzero
with a nonzero, layout-respecting error block address it succeeds (returns
0) with the flag 0 afterward. -/
theorem record_ack_protocol_amended :
    (∀ base dev notify m p1 p2, ghes_get_addr base notify = some (p1, p2) →
      readLE m p2 8 = 0 →
      (ghes_record_aer_errors base dev notify m).1 = false ∧
      readLE (ghes_record_aer_errors base dev notify m).2 p2 8 = 1) ∧
    (∀ base dev ce notify m p1 p2,
      ghes_get_addr base notify = some (p1, p2) →
      readLE m p2 8 = 0 →
      (ghes_record_cxl_errors base dev ce notify m).1 = false ∧
      readLE (ghes_record_cxl_errors base dev ce notify m).2 p2 8 = 1) ∧
    (∀ base dev gem notify m p1 p2,
      ghes_get_addr base notify = some (p1, p2) →
      readLE m p2 8 = 0 →
      (ghes_record_cxl_event_gm base dev gem notify m).1 = false ∧
      readLE (ghes_record_cxl_event_gm base dev gem notify m).2 p2 8 = 1) ∧
    (∀ base dev notify m p1 p2, ghes_get_addr base notify = some (p1, p2) →
      ¬readLE m p2 8 = 0 →
      ¬(ACPI_GHES_MAX_RAW_DATA_LENGTH <
        ((readLE m (p1 + 8) 4 + ACPI_GHES_DATA_LENGTH
          + ACPI_GHES_PCIE_CPER_LENGTH) % 2 ^ 32 + ACPI_GHES_GESB_SIZE)
          % 2 ^ 32) →
      (ghes_record_aer_errors base dev notify m).1 = true ∧
      readLE (ghes_record_aer_errors base dev notify m).2 p2 8 = 0) ∧
    (∀ base dev ce notify m p1 p2,
      ghes_get_addr base notify = some (p1, p2) →
      ¬readLE m p2 8 = 0 →
      ¬(ACPI_GHES_MAX_RAW_DATA_LENGTH <
        ((readLE m (p1 + 8) 4 + ACPI_GHES_DATA_LENGTH
          + ACPI_GHES_PCIE_CPER_LENGTH) % 2 ^ 32 + ACPI_GHES_GESB_SIZE)
          % 2 ^ 32) →
      (ghes_record_cxl_errors base dev ce notify m).1 = true ∧
      readLE (ghes_record_cxl_errors base dev ce notify m).2 p2 8 = 0) ∧
    (∀ base dev gem notify m p1 p2,
      ghes_get_addr base notify = some (p1, p2) →
      ¬readLE m p2 8 = 0 →
      ¬(ACPI_GHES_MAX_RAW_DATA_LENGTH <
        ((readLE m (p1 + 8) 4 + ACPI_GHES_DATA_LENGTH + 0x90) % 2 ^ 32
          + ACPI_GHES_GESB_SIZE) % 2 ^ 32) →
      (ghes_record_cxl_event_gm base dev gem notify m).1 = false ∧
      readLE (ghes_record_cxl_event_gm base dev gem notify m).2 p2 8 = 0) ∧
    (∀ base source_id physical_address m, source_id < 2 →
      physical_address ≠ 0 →
      readLE m (base + source_id * 8 + 16) 8 = 0 →
      acpi_ghes_record_errors base source_id physical_address m = (1, m)) ∧
    (∀ base source_id physical_address m, source_id < 2 →
      physical_address ≠ 0 →
      ¬readLE m (base + source_id * 8 + 16) 8 = 0 →
      readLE m (base + source_id * 8) 8 ≠ 0 →
      base + 32 ≤ readLE m (base + source_id * 8) 8 →
      (acpi_ghes_record_errors base source_id physical_address m).1 = 0 ∧
      readLE (acpi_ghes_record_errors base source_id physical_address m).2
        (base + source_id * 8 + 16) 8 = 0) := by
  refine ⟨?_, ?_, ?_, ?_, ?_, ?_, ?_, ?_⟩
  · intro base dev notify m p1 p2 hres hack
    have hwrap : ghes_record_aer_errors base dev notify m =
        (false, writeBytes m p2 (uIntLE 1 8)) := by
      rw [ghes_record_aer_errors, hres]
      simp only [if_pos hack]
    exact ⟨by rw [hwrap], by rw [hwrap]; exact readLE_one m p2⟩
  · intro base dev ce notify m p1 p2 hres hack
    have hwrap : ghes_record_cxl_errors base dev ce notify m =
        (false, writeBytes m p2 (uIntLE 1 8)) := by
      rw [ghes_record_cxl_errors, hres]
      simp only [if_pos hack]
    exact ⟨by rw [hwrap], by rw [hwrap]; exact readLE_one m p2⟩
  · intro base dev gem notify m p1 p2 hres hack
    have hwrap : ghes_record_cxl_event_gm base dev gem notify m =
        (false, writeBytes m p2 (uIntLE 1 8)) := by
      rw [ghes_record_cxl_event_gm, hres]
      simp only [if_pos hack]
    exact ⟨by rw [hwrap], by rw [hwrap]; exact readLE_one m p2⟩
  · intro base dev notify m p1 p2 hres hack hcap
    have hgeom : p2 + 8 ≤ p1 := ghes_get_addr_geometry base notify p1 p2 hres
    have hg1 : readLE (writeBytes m p2 (uIntLE 0 8)) (p1 + 8) 4
        = readLE m (p1 + 8) 4 := by
      refine readLE_writeBytes_of_disjoint m p2 _ (p1 + 8) 4 (Or.inr ?_)
      rw [uIntLE_length]
      omega
    have hwrap : ghes_record_aer_errors base dev notify m =
        (true, writeBytes (writeBytes m p2 (uIntLE 0 8)) p1
          (aer_record_block dev ((readLE m (p1 + 8) 4
            + ACPI_GHES_DATA_LENGTH + ACPI_GHES_PCIE_CPER_LENGTH)
            % 2 ^ 32))) := by
      rw [ghes_record_aer_errors, hres]
      simp only [if_neg hack]
      rw [ghes_record_aer_error, hg1, if_neg hcap]
    refine ⟨by rw [hwrap], ?_⟩
    rw [hwrap]
    have hd : readLE (writeBytes (writeBytes m p2 (uIntLE 0 8)) p1
        (aer_record_block dev ((readLE m (p1 + 8) 4 + ACPI_GHES_DATA_LENGTH
          + ACPI_GHES_PCIE_CPER_LENGTH) % 2 ^ 32))) p2 8
        = readLE (writeBytes m p2 (uIntLE 0 8)) p2 8 :=
      readLE_writeBytes_of_disjoint _ p1 _ p2 8 (Or.inl (by omega))
    rw [hd]
    exact readLE_zero m p2
  · intro base dev ce notify m p1 p2 hres hack hcap
    have hgeom : p2 + 8 ≤ p1 := ghes_get_addr_geometry base notify p1 p2 hres
    have hg1 : readLE (writeBytes m p2 (uIntLE 0 8)) (p1 + 8) 4
        = readLE m (p1 + 8) 4 := by
      refine readLE_writeBytes_of_disjoint m p2 _ (p1 + 8) 4 (Or.inr ?_)
      rw [uIntLE_length]
      omega
    have hwrap : ghes_record_cxl_errors base dev ce notify m =
        (true, writeBytes (writeBytes m p2 (uIntLE 0 8)) p1
          (cxl_record_block dev ce ((readLE m (p1 + 8) 4
            + ACPI_GHES_DATA_LENGTH + ACPI_GHES_PCIE_CPER_LENGTH)
            % 2 ^ 32))) := by
      rw [ghes_record_cxl_errors, hres]
      simp only [if_neg hack]
      rw [ghes_record_cxl_error, hg1, if_neg hcap]
    refine ⟨by rw [hwrap], ?_⟩
    rw [hwrap]
    have hd : readLE (writeBytes (writeBytes m p2 (uIntLE 0 8)) p1
        (cxl_record_block dev ce ((readLE m (p1 + 8) 4
          + ACPI_GHES_DATA_LENGTH + ACPI_GHES_PCIE_CPER_LENGTH) % 2 ^ 32)))
        p2 8 = readLE (writeBytes m p2 (uIntLE 0 8)) p2 8 :=
      readLE_writeBytes_of_disjoint _ p1 _ p2 8 (Or.inl (by omega))
    rw [hd]
    exact readLE_zero m p2
  · intro base dev gem notify m p1 p2 hres hack hcap
    have hgeom : p2 + 8 ≤ p1 := ghes_get_addr_geometry base notify p1 p2 hres
    have hg1 : readLE (writeBytes m p2 (uIntLE 0 8)) (p1 + 8) 4
        = readLE m (p1 + 8) 4 := by
      refine readLE_writeBytes_of_disjoint m p2 _ (p1 + 8) 4 (Or.inr ?_)
      rw [uIntLE_length]
      omega
    have hwrap : ghes_record_cxl_event_gm base dev gem notify m =
        (false, writeBytes (writeBytes m p2 (uIntLE 0 8)) p1
          (gm_record_block dev gem ((readLE m (p1 + 8) 4
            + ACPI_GHES_DATA_LENGTH + 0x90) % 2 ^ 32))) := by
      rw [ghes_record_cxl_event_gm, hres]
      simp only [if_neg hack]
      rw [ghes_record_cxl_gen_media, hg1, if_neg hcap]
      simp
    refine ⟨by rw [hwrap], ?_⟩
    rw [hwrap]
    have hd : readLE (writeBytes (writeBytes m p2 (uIntLE 0 8)) p1
        (gm_record_block dev gem ((readLE m (p1 + 8) 4
          + ACPI_GHES_DATA_LENGTH + 0x90) % 2 ^ 32))) p2 8
        = readLE (writeBytes m p2 (uIntLE 0 8)) p2 8 :=
      readLE_writeBytes_of_disjoint _ p1 _ p2 8 (Or.inl (by omega))
    rw [hd]
    exact readLE_zero m p2
  · intro base source_id physical_address m hsrc hphys hack
    rw [acpi_ghes_record_errors, if_pos hphys]
    simp only [if_pos hsrc]
    have hack' : readLE m (base + source_id * 8
        + ACPI_GHES_ERROR_SOURCE_COUNT * 8) 8 = 0 := by
      rw [show base + source_id * 8 + ACPI_GHES_ERROR_SOURCE_COUNT * 8
        = base + source_id * 8 + 16 from by rw [ACPI_GHES_ERROR_SOURCE_COUNT]]
      exact hack
    rw [if_pos hack']
  · intro base source_id physical_address m hsrc hphys hack heba hlayout
    have hack' : ¬readLE m (base + source_id * 8
        + ACPI_GHES_ERROR_SOURCE_COUNT * 8) 8 = 0 := by
      rw [show base + source_id * 8 + ACPI_GHES_ERROR_SOURCE_COUNT * 8
        = base + source_id * 8 + 16 from by rw [ACPI_GHES_ERROR_SOURCE_COUNT]]
      exact hack
    have hwrap : acpi_ghes_record_errors base source_id physical_address m =
        (0, writeBytes (writeBytes m (base + source_id * 8
          + ACPI_GHES_ERROR_SOURCE_COUNT * 8) (uIntLE 0 8))
          (readLE m (base + source_id * 8) 8)
          (mem_error_block physical_address)) := by
      rw [acpi_ghes_record_errors, if_pos hphys]
      simp only [if_pos hsrc]
      rw [if_neg hack', if_pos heba, acpi_ghes_record_mem_error]
    refine ⟨by rw [hwrap], ?_⟩
    rw [hwrap]
    have hc : ACPI_GHES_ERROR_SOURCE_COUNT * 8 = 16 := by
      rw [ACPI_GHES_ERROR_SOURCE_COUNT]
    have hd : readLE (writeBytes (writeBytes m (base + source_id * 8
        + ACPI_GHES_ERROR_SOURCE_COUNT * 8) (uIntLE 0 8))
        (readLE m (base + source_id * 8) 8)
        (mem_error_block physical_address))
        (base + source_id * 8 + 16) 8
        = readLE (writeBytes m (base + source_id * 8
          + ACPI_GHES_ERROR_SOURCE_COUNT * 8) (uIntLE 0 8))
          (base + source_id * 8 + 16) 8 :=
      readLE_writeBytes_of_disjoint _ _ _ _ 8 (Or.inl (by omega))
    rw [hd, show base + source_id * 8 + 16 = base + source_id * 8
      + ACPI_GHES_ERROR_SOURCE_COUNT * 8 from by rw [hc]]
    exact readLE_zero m _

set_option maxRecDepth 10000 in
/-- Witness for `record_ack_protocol_amended`: the AER operation at base 0,
notify 8 (SEA), on the all-zero region (ack 0) and on the armed region
(ack 1), and the memory operation for source 0 in the same two states. -/
theorem record_ack_protocol_amended_witness :
    ((ghes_record_aer_errors 0 devNoPcieCap 8 zeroMem).1 = false ∧
      readLE (ghes_record_aer_errors 0 devNoPcieCap 8 zeroMem).2 16 8 = 1) ∧
    ((ghes_record_aer_errors 0 devNoPcieCap 8 memScenarioMem).1 = true ∧
      readLE (ghes_record_aer_errors 0 devNoPcieCap 8 memScenarioMem).2 16 8
        = 0) ∧
    acpi_ghes_record_errors 0 0 0x1000 zeroMem = (1, zeroMem) ∧
    ((acpi_ghes_record_errors 0 0 0x1000 memScenarioMem).1 = 0 ∧
      readLE (acpi_ghes_record_errors 0 0 0x1000 memScenarioMem).2 16 8
        = 0) := by
  refine ⟨record_ack_protocol_amended.1 0 devNoPcieCap 8 zeroMem 32 16
      (by decide) (by decide),
    record_ack_protocol_amended.2.2.2.1 0 devNoPcieCap 8 memScenarioMem 32 16
      (by decide) (by decide) (by decide),
    record_ack_protocol_amended.2.2.2.2.2.2.1 0 0 0x1000 zeroMem
      (by decide) (by decide) (by decide),
    record_ack_protocol_amended.2.2.2.2.2.2.2 0 0 0x1000 memScenarioMem
      (by decide) (by decide) (by decide) (by decide) (by decide)⟩

/-- A PCI device exposing a PCIe capability at config offset 0x40 (and
nothing else), used to witness the double-record theorem. -/
def devWithPcieCap : PCIDev :=
  ⟨0x40, 0, 0, 0, fun _ => 0, 0, 0, 0, 0, 0, 0, 0, CXLRole.other⟩

set_option maxRecDepth 10000 in
/-- Witness for `aer_double_record_delimited`: two AER records for
`devWithPcieCap` into the slot at 0x2000 of the all-zero region. -/
theorem aer_double_record_delimited_witness :
    (ghes_record_aer_error devWithPcieCap 0x2000
        (ghes_record_aer_error devWithPcieCap 0x2000 zeroMem).2).1 = true ∧
    readLE (ghes_record_aer_error devWithPcieCap 0x2000
        (ghes_record_aer_error devWithPcieCap 0x2000 zeroMem).2).2
        (0x2000 + 12) 4
      = ACPI_GHES_DATA_LENGTH + ACPI_GHES_PCIE_CPER_LENGTH ∧
    (aer_record_block devWithPcieCap
        (ACPI_GHES_DATA_LENGTH + ACPI_GHES_PCIE_CPER_LENGTH)).length
      = ACPI_GHES_GESB_SIZE
        + (ACPI_GHES_DATA_LENGTH + ACPI_GHES_PCIE_CPER_LENGTH) ∧
    (List.range (ACPI_GHES_GESB_SIZE + (ACPI_GHES_DATA_LENGTH
        + ACPI_GHES_PCIE_CPER_LENGTH))).map
      (fun i => (ghes_record_aer_error devWithPcieCap 0x2000
        (ghes_record_aer_error devWithPcieCap 0x2000 zeroMem).2).2
        (0x2000 + i))
      = aer_record_block devWithPcieCap
        (ACPI_GHES_DATA_LENGTH + ACPI_GHES_PCIE_CPER_LENGTH) :=
  aer_double_record_delimited devWithPcieCap devWithPcieCap 0x2000 zeroMem
    (by decide) (by decide)

/-- A PCI device with PCIe capability at 0x40 and AER capability at 0x100
whose AER register dump carries the byte 0xCD at its offset 92 (config
byte 0x15C), which lands at offset 296 of the encoded record. -/
def devAerResidual : PCIDev :=
  ⟨0x40, 0, 0x100, 0, fun x => if x = 0x15C then 0xCD else 0,
   0, 0, 0, 0, 0, 0, 0, CXLRole.other⟩

set_option maxRecDepth 10000 in
/-- C5 (counterexample): recording first for `devAerResidual` (a 300-byte
record whose byte at slot offset 296 is 0xCD) and then for a device
without the PCIe capability falsifies the claim as stated: the second
call succeeds and declares data_length 280, so its record extends to slot
offset 20 + 280 = 300, but its block is only 296 bytes (the C6 omission),
and the slot byte at offset 296 — inside the declared extent — is still
the first record's residual 0xCD: a residual byte of a longer previous
record is counted, and the second write does not fully overwrite the
first. -/
theorem aer_double_record_residual_leak :
    (ghes_record_aer_error devNoPcieCap 0x2000
        (ghes_record_aer_error devAerResidual 0x2000 zeroMem).2).1 = true ∧
    readLE (ghes_record_aer_error devNoPcieCap 0x2000
        (ghes_record_aer_error devAerResidual 0x2000 zeroMem).2).2
        (0x2000 + 12) 4 = 280 ∧
    (aer_record_block devNoPcieCap 280).length = 296 ∧
    (ghes_record_aer_error devAerResidual 0x2000 zeroMem).2 (0x2000 + 296)
      = 0xCD ∧
    (ghes_record_aer_error devNoPcieCap 0x2000
        (ghes_record_aer_error devAerResidual 0x2000 zeroMem).2).2
        (0x2000 + 296) = 0xCD := by
  refine ⟨by decide, by decide, by decide, by decide, by decide⟩
